import Mathlib

/-!
# Verification of the domain-check lookup pipeline

A shallow embedding, in Lean 4, of the core of the `domain-check` Rust
library: domain validation (`utils.rs`), the RDAP endpoint resolver
(`protocols/registry.rs`), the RDAP and WHOIS clients
(`protocols/rdap.rs`, `protocols/whois.rs`), the single-lookup
orchestrator and batch executor (`checker.rs`), the error taxonomy
(`error.rs`), and the name generator (`generate.rs`).

Strings are modelled as `List Char` restricted in practice to ASCII;
Rust's Unicode-aware `char::is_alphanumeric`, `char::is_whitespace` and
`str::to_lowercase` are modelled by their ASCII restrictions, which
coincide with Rust's behaviour on every ASCII character.  `Duration`
values are modelled as natural numbers of milliseconds.  I/O (HTTP and
subprocess outcomes, elapsed wall-clock times) is abstracted into
explicit environment parameters, so every operation of the library
becomes a pure function of its inputs and that environment.
-/

namespace DomainCheck

/-- Strings of the embedded program: lists of characters. -/
abbrev Str := List Char

/-- ASCII restriction of Rust `char::to_lowercase` (maps only A–Z). -/
def toLowerChar (c : Char) : Char := c.toLower

/-- ASCII restriction of Rust `str::to_lowercase`. -/
def toLowerStr (s : Str) : Str := s.map toLowerChar

/-- ASCII restriction of Rust `char::is_whitespace`:
space and the control characters U+0009 through U+000D. -/
def isRustWhitespace (c : Char) : Bool := c = ' ' || (9 ≤ c.toNat && c.toNat ≤ 13)

/-- Rust `str::trim`: drop whitespace from both ends. -/
def trimStr (s : Str) : Str :=
  ((s.dropWhile isRustWhitespace).reverse.dropWhile isRustWhitespace).reverse

/-- Rust `str::contains(pat)` for a string pattern: substring containment
(`pat` occurs consecutively somewhere in `hay`). -/
def containsSub (hay pat : Str) : Bool := hay.tails.any (fun t => pat.isPrefixOf t)

/-- Decimal rendering of a natural number, for embedded format strings. -/
def natToStr (n : Nat) : Str := (toString n).data

/-- The error taxonomy of `error.rs` (`DomainCheckError`).  `Duration`
payloads are milliseconds.  The `invalidPattern` variant is used by
`generate.rs` but its declaration is in a part of `types.rs`/`error.rs`
not present under `src/`; it is modelled from the spec's *invalid-pattern*
error kind, carrying the offending pattern and a reason. -/
inductive DomainCheckError where
  | invalidDomain (domain reason : Str)
  | networkError (message : Str) (source : Option Str)
  | rdapError (domain message : Str) (status_code : Option Nat)
  | whoisError (domain message : Str)
  | bootstrapError (tld message : Str)
  | parseError (message : Str) (content : Option Str)
  | configError (message : Str)
  | fileError (path message : Str)
  | timeout (operation : Str) (duration : Nat)
  | rateLimited (service message : Str) (retry_after : Option Nat)
  | internal (message : Str)
  | invalidPattern (pattern reason : Str)
deriving DecidableEq, Repr

namespace DomainCheckError

/-- `DomainCheckError::indicates_available` (`error.rs` lines 154–169). -/
def indicates_available : DomainCheckError → Bool
  | .rdapError _ _ (some 404) => true
  | .whoisError _ message =>
      let msg := toLowerStr message
      containsSub msg "not found".data || containsSub msg "no match".data ||
      containsSub msg "no data found".data || containsSub msg "domain available".data
  | _ => false

/-- `DomainCheckError::is_retryable` (`error.rs` lines 172–183). -/
def is_retryable : DomainCheckError → Bool
  | .networkError _ _ => true
  | .timeout _ _ => true
  | .rateLimited _ _ _ => true
  | .rdapError _ _ (some code) => 500 ≤ code && code ≤ 599
  | _ => false

end DomainCheckError

/-- The `Display` implementation for `DomainCheckError` (`error.rs` lines
186–258), used by the batch executor via `e.to_string()`.  `Duration`
payloads are rendered as `<n>ms` (the embedding's abstraction of Rust's
`Duration` debug format); every branch otherwise follows the source. -/
def errToString : DomainCheckError → Str
  | .invalidDomain domain reason =>
      "❌ '".data ++ domain ++ "' is not a valid domain name: ".data ++ reason ++
      "\n   💡 Try something like 'example.com' or use a different domain".data
  | .networkError message _source =>
      let m := toLowerStr message
      if containsSub m "connection".data || containsSub m "connect".data then
        "🌐 Cannot connect to the internet\n   💡 Please check your network connection and try again".data
      else if containsSub m "timeout".data then
        "⏱️ Request timed out\n   💡 Your internet connection may be slow. Try again or check fewer domains at once".data
      else
        "🌐 Network error: ".data ++ message ++ "\n   💡 Please check your internet connection".data
  | .rdapError domain message status_code =>
      match status_code with
      | some 404 => "✅ ".data ++ domain ++ ": Domain appears to be available".data
      | some 429 => "⏳ ".data ++ domain ++
          ": Registry is rate limiting requests\n   💡 Please wait a moment and try again".data
      | some code =>
          if 500 ≤ code && code ≤ 599 then
            "⚠️ ".data ++ domain ++
            ": Registry server is temporarily unavailable\n   💡 Trying backup method...".data
          else
            "⚠️ ".data ++ domain ++ ": Registry returned error (HTTP ".data ++ natToStr code ++
            ")\n   💡 This domain registry may be temporarily unavailable".data
      | none => "⚠️ ".data ++ domain ++ ": ".data ++ message ++
          "\n   💡 Trying alternative checking method...".data
  | .whoisError domain message =>
      let m := toLowerStr message
      if containsSub m "not found".data || containsSub m "no match".data then
        "✅ ".data ++ domain ++ ": Domain appears to be available".data
      else if containsSub m "rate limit".data || containsSub m "too many".data then
        "⏳ ".data ++ domain ++
        ": WHOIS server is rate limiting requests\n   💡 Please wait a moment and try again".data
      else if containsSub m "whois".data && containsSub m "not found".data then
        "⚠️ ".data ++ domain ++
        ": WHOIS command not found on this system\n   💡 Please install whois or use online domain checkers".data
      else
        "⚠️ ".data ++ domain ++
        ": WHOIS lookup failed\n   💡 This may indicate the domain is available or the server is busy".data
  | .bootstrapError tld _message =>
      "❓ Unknown domain extension '.".data ++ tld ++
      "'\n   💡 This TLD may not support automated checking. Try manually checking with a registrar".data
  | .parseError _ _ =>
      "⚠️ Unable to understand server response\n   💡 The domain registry may be experiencing issues. Please try again later".data
  | .configError message =>
      "⚙️ Configuration error: ".data ++ message ++
      "\n   💡 Please check your command line arguments or configuration file values".data
  | .fileError path message =>
      let m := toLowerStr message
      if containsSub m "not found".data || containsSub m "no such file".data then
        "📁 File not found: ".data ++ path ++
        "\n   💡 Please check the file path and make sure the file exists".data
      else if containsSub m "permission".data then
        "🔒 Permission denied: ".data ++ path ++
        "\n   💡 Please check file permissions or try running with appropriate access".data
      else if containsSub m "no valid domains".data then
        "📄 No valid domains found in: ".data ++ path ++
        "\n   💡 Make sure the file contains domain names (one per line) and check the format".data
      else
        "📁 File error (".data ++ path ++ "): ".data ++ message ++
        "\n   💡 Please check the file and try again".data
  | .timeout operation duration =>
      "⏱️ Operation timed out after ".data ++ natToStr duration ++ "ms: ".data ++ operation ++
      "\n   💡 Try reducing the number of domains or check your internet connection".data
  | .rateLimited service message retry_after =>
      match retry_after with
      | some retry => "⏳ Rate limited by ".data ++ service ++ ": ".data ++ message ++
          "\n   💡 Please wait ".data ++ natToStr retry ++ "ms and try again".data
      | none => "⏳ Rate limited by ".data ++ service ++ ": ".data ++ message ++
          "\n   💡 Please wait a moment and try again".data
  | .internal message =>
      "🔧 Internal error: ".data ++ message ++
      "\n   💡 This is unexpected. Please try again or report this issue".data
  | .invalidPattern pattern reason =>
      "❌ Invalid pattern '".data ++ pattern ++ "': ".data ++ reason

/-- `CheckMethod` (`types.rs` lines 122–138). -/
inductive CheckMethod where
  | Rdap
  | Whois
  | Bootstrap
  | Unknown
deriving DecidableEq, Repr

/-- `DomainInfo` (`types.rs` lines 46–68). -/
structure DomainInfo where
  registrar : Option Str
  creation_date : Option Str
  expiration_date : Option Str
  status : List Str
  updated_date : Option Str
  nameservers : List Str
deriving DecidableEq, Repr

/-- `DomainResult` (`types.rs` lines 15–39); `check_duration` in ms. -/
structure DomainResult where
  domain : Str
  available : Option Bool
  info : Option DomainInfo
  check_duration : Option Nat
  method_used : CheckMethod
  error_message : Option Str
deriving DecidableEq, Repr

/-- `CheckConfig` (`types.rs` lines 75–115); durations in ms, and the
`custom_presets` map is omitted (unused by the operations modelled here). -/
structure CheckConfig where
  concurrency : Nat
  timeout : Nat
  enable_whois_fallback : Bool
  enable_bootstrap : Bool
  detailed_info : Bool
  tlds : Option (List Str)
  rdap_timeout : Nat
  whois_timeout : Nat
deriving DecidableEq, Repr

/-- `CheckConfig::default` (`types.rs` lines 161–173). -/
def CheckConfig.default : CheckConfig :=
  { concurrency := 10, timeout := 5000, enable_whois_fallback := true,
    enable_bootstrap := false, detailed_info := false, tlds := none,
    rdap_timeout := 3000, whois_timeout := 5000 }

/-- `validate_domain` (`utils.rs` lines 20–40). -/
def validate_domain (domain : Str) : Except DomainCheckError Unit :=
  let domain := trimStr domain
  if domain.isEmpty then
    .error (.invalidDomain domain "Domain name cannot be empty".data)
  else if !domain.contains '.' && domain.length < 2 then
    .error (.invalidDomain domain "Domain name too short".data)
  else
    .ok ()

/-- `is_valid_base_name` (`utils.rs` lines 124–138).  Rust
`char::is_alphanumeric` is modelled by its ASCII restriction
`Char.isAlphanum`. -/
def is_valid_base_name (domain : Str) : Bool :=
  if domain.length < 2 then false
  else if domain.head? = some '-' || domain.getLast? = some '-' then false
  else domain.all (fun c => c.isAlphanum || c = '-')

/-- `extract_tld` (`protocols/registry.rs` lines 605–619). -/
def extract_tld (domain : Str) : Except DomainCheckError Str :=
  let parts := domain.splitOn '.'
  if parts.length < 2 then
    .error (.invalidDomain domain "Domain must contain at least one dot".data)
  else
    .ok (toLowerStr (parts.getLastD []))

/-- The static embedded RDAP registry, `get_rdap_registry_map`
(`protocols/registry.rs` lines 63–115), as an association list. -/
def rdap_registry : List (Str × Str) :=
  [ ("com".data, "https://rdap.verisign.com/com/v1/domain/".data),
    ("net".data, "https://rdap.verisign.com/net/v1/domain/".data),
    ("org".data, "https://rdap.publicinterestregistry.org/rdap/domain/".data),
    ("info".data, "https://rdap.identitydigital.services/rdap/domain/".data),
    ("biz".data, "https://rdap.nic.biz/domain/".data),
    ("app".data, "https://pubapi.registry.google/rdap/domain/".data),
    ("dev".data, "https://pubapi.registry.google/rdap/domain/".data),
    ("page".data, "https://pubapi.registry.google/rdap/domain/".data),
    ("xyz".data, "https://rdap.centralnic.com/xyz/domain/".data),
    ("tech".data, "https://rdap.centralnic.com/tech/domain/".data),
    ("online".data, "https://rdap.centralnic.com/online/domain/".data),
    ("site".data, "https://rdap.centralnic.com/site/domain/".data),
    ("website".data, "https://rdap.centralnic.com/website/domain/".data),
    ("blog".data, "https://rdap.blog.fury.ca/rdap/domain/".data),
    ("shop".data, "https://rdap.gmoregistry.net/rdap/domain/".data),
    ("ai".data, "https://rdap.identitydigital.services/rdap/domain/".data),
    ("io".data, "https://rdap.identitydigital.services/rdap/domain/".data),
    ("me".data, "https://rdap.identitydigital.services/rdap/domain/".data),
    ("zone".data, "https://rdap.identitydigital.services/rdap/domain/".data),
    ("digital".data, "https://rdap.identitydigital.services/rdap/domain/".data),
    ("us".data, "https://rdap.nic.us/domain/".data),
    ("uk".data, "https://rdap.nominet.uk/domain/".data),
    ("de".data, "https://rdap.denic.de/domain/".data),
    ("ca".data, "https://rdap.ca.fury.ca/rdap/domain/".data),
    ("au".data, "https://rdap.cctld.au/rdap/domain/".data),
    ("fr".data, "https://rdap.nic.fr/domain/".data),
    ("nl".data, "https://rdap.sidn.nl/domain/".data),
    ("br".data, "https://rdap.registro.br/domain/".data),
    ("in".data, "https://rdap.nixiregistry.in/rdap/domain/".data),
    ("tv".data, "https://rdap.nic.tv/domain/".data),
    ("cc".data, "https://tld-rdap.verisign.com/cc/v1/domain/".data),
    ("cloud".data, "https://rdap.registry.cloud/rdap/domain/".data) ]

/-- `HashMap::get` on an association-list model of the registry maps. -/
def lookupAssoc (m : List (Str × Str)) (k : Str) : Option Str :=
  (m.find? (fun p => p.1 = k)).map (fun p => p.2)

/-- `BootstrapCache` (`protocols/registry.rs` lines 15–26).  The
`last_fetch : Option Instant` field and the 24-hour TTL comparison of
`is_stale` are abstracted into the boolean `stale` (`is_stale()` holds of
the state); a successful fetch stamps `last_fetch := now`, making the
cache fresh, i.e. `stale := false`. -/
structure BootstrapCache where
  rdap_endpoints : List (Str × Str)
  whois_servers : List (Str × Str)
  no_rdap : List Str
  rdap_loaded : Bool
  stale : Bool
deriving DecidableEq, Repr

/-- `BootstrapCache::new` (`protocols/registry.rs` lines 32–40): empty maps,
nothing loaded, and `is_stale()` holds because `last_fetch` is `None`. -/
def BootstrapCache.new : BootstrapCache :=
  { rdap_endpoints := [], whois_servers := [], no_rdap := [],
    rdap_loaded := false, stale := true }

/-- Outcome of `fetch_full_bootstrap`'s I/O (`protocols/registry.rs` lines
410–484), abstracting the HTTP fetch and JSON parse: either the endpoint
map that the parse produced, or one of the error constructors the
function uses (`network_with_source` when the client cannot be built,
`bootstrap("*", …)` for fetch/HTTP-status/JSON failures). -/
inductive BootstrapFetchOutcome where
  | fetched (endpoints : List (Str × Str))
  | failNetwork (message : Str) (source : Str)
  | failBootstrap (message : Str)
deriving DecidableEq, Repr

/-- Result of one `get_rdap_endpoint` call: the returned value, whether
`fetch_full_bootstrap` was invoked, and the cache state afterwards. -/
structure ResolveOutcome where
  result : Except DomainCheckError Str
  fetch_performed : Bool
  cache : BootstrapCache
deriving Repr

/-- `get_rdap_endpoint` (`protocols/registry.rs` lines 330–403), with the
cache state threaded explicitly and the bootstrap fetch (step 4) drawn
from `fetch`.  Lookup order is that of the source: static registry first,
then the fresh positive cache, then the fresh negative cache, then — when
`use_bootstrap` — a fetch if the cache was never loaded or is stale,
re-checking the refreshed map and negatively caching a miss. -/
def get_rdap_endpoint (tld : Str) (use_bootstrap : Bool) (cache : BootstrapCache)
    (fetch : BootstrapFetchOutcome) : ResolveOutcome :=
  let tld_lower := toLowerStr tld
  match lookupAssoc rdap_registry tld_lower with
  | some endpoint => ⟨.ok endpoint, false, cache⟩
  | none =>
    match if !cache.stale then lookupAssoc cache.rdap_endpoints tld_lower else none with
    | some endpoint => ⟨.ok endpoint, false, cache⟩
    | none =>
      if cache.no_rdap.contains tld_lower && !cache.stale then
        ⟨.error (.bootstrapError tld_lower "TLD has no known RDAP endpoint".data),
         false, cache⟩
      else if use_bootstrap then
        let needs_fetch := !cache.rdap_loaded || cache.stale
        let afterFetch : Except DomainCheckError BootstrapCache :=
          if needs_fetch then
            match fetch with
            | .fetched endpoints =>
                .ok { cache with rdap_endpoints := endpoints, rdap_loaded := true,
                                 stale := false, no_rdap := [] }
            | .failNetwork message source => .error (.networkError message (some source))
            | .failBootstrap message => .error (.bootstrapError "*".data message)
          else .ok cache
        match afterFetch with
        | .error e => ⟨.error e, needs_fetch, cache⟩
        | .ok cache2 =>
          match lookupAssoc cache2.rdap_endpoints tld_lower with
          | some endpoint => ⟨.ok endpoint, needs_fetch, cache2⟩
          | none =>
              ⟨.error (.bootstrapError tld_lower "TLD not found in IANA bootstrap registry".data),
               needs_fetch, { cache2 with no_rdap := cache2.no_rdap ++ [tld_lower] }⟩
      else
        ⟨.error (.bootstrapError tld_lower "No known RDAP endpoint and bootstrap disabled".data),
         false, cache⟩

/-- Outcome of `make_rdap_request` (`protocols/rdap.rs` lines 150–266),
abstracting the HTTP exchange (including the single 429 retry, whose
resolution is already folded into the outcome): either `Ok((available,
info))`, or `Err(e)` for the request/parse/status errors the function
constructs, or expiry of the `tokio::time::timeout` wrapper. -/
inductive RdapRequestOutcome where
  | completed (available : Bool) (info : Option DomainInfo)
  | failed (e : DomainCheckError)
  | timedOut
deriving Repr

/-- `RdapClient::check_domain` (`protocols/rdap.rs` lines 83–146).
`use_bootstrap` and `timeout` are the client's configuration; `cache` and
`fetch` feed endpoint resolution; `request` is the HTTP outcome and
`elapsed` the measured `start_time.elapsed()` in ms.  On success the
method is `Bootstrap` when `self.use_bootstrap` is set and `Rdap`
otherwise; an error whose `indicates_available()` holds becomes an
available result with method `Rdap`. -/
def rdap_check_domain (domain : Str) (use_bootstrap : Bool) (timeout : Nat)
    (cache : BootstrapCache) (fetch : BootstrapFetchOutcome)
    (request : RdapRequestOutcome) (elapsed : Nat) :
    Except DomainCheckError DomainResult :=
  match extract_tld domain with
  | .error e => .error e
  | .ok tld =>
    match (get_rdap_endpoint tld use_bootstrap cache fetch).result with
    | .error e => .error e
    | .ok _endpoint =>
      match request with
      | .completed available info =>
          .ok { domain := domain, available := some available, info := info,
                check_duration := some elapsed,
                method_used := if use_bootstrap then .Bootstrap else .Rdap,
                error_message := none }
      | .failed e =>
          if e.indicates_available then
            .ok { domain := domain, available := some true, info := none,
                  check_duration := some elapsed, method_used := .Rdap,
                  error_message := none }
          else
            .error e
      | .timedOut => .error (.timeout "RDAP request".data timeout)

/-- `invalid_tld_patterns` (`protocols/whois.rs` lines 209–218). -/
def invalid_tld_patterns : List Str :=
  [ "no whois server is known".data, "no whois server".data, "invalid tld".data,
    "unknown tld".data, "tld not found".data, "no such tld".data, "bad tld".data,
    "invalid domain extension".data ]

/-- `available_patterns` (`protocols/whois.rs` lines 230–249). -/
def available_patterns : List Str :=
  [ "no match".data, "not found".data, "no data found".data, "no entries found".data,
    "domain not found".data, "domain available".data, "status: available".data,
    "status: free".data, "no information available".data, "not registered".data,
    "no matching record".data, "domain status: no object found".data,
    "the queried object does not exist".data, "object does not exist".data,
    "no matching entry".data, "domain name not found".data,
    "this domain name has not been registered".data, "no found".data ]

/-- `taken_patterns` (`protocols/whois.rs` lines 252–267). -/
def taken_patterns : List Str :=
  [ "domain status:".data, "registrar:".data, "creation date:".data, "created:".data,
    "registry domain id:".data, "registrant:".data, "admin contact:".data,
    "tech contact:".data, "name server:".data, "nameservers:".data,
    "expiry date:".data, "expires:".data, "updated:".data, "last updated:".data ]

/-- `rate_limit_patterns` inside `is_rate_limited`
(`protocols/whois.rs` lines 303–313). -/
def rate_limit_patterns : List Str :=
  [ "rate limit exceeded".data, "too many requests".data, "try again later".data,
    "quota exceeded".data, "limit exceeded".data, "throttled".data, "blocked".data,
    "rate-limited".data, "too many requests from your ip".data ]

/-- `WhoisClient::parse_whois_availability` (`protocols/whois.rs` lines
205–298): invalid-TLD patterns first, then availability patterns, then a
count of matching taken patterns, then the short-body heuristic, else an
undecidable-status error. -/
def parse_whois_availability (whois_output : Str) : Except DomainCheckError Bool :=
  let output_lower := toLowerStr whois_output
  if invalid_tld_patterns.any (fun p => containsSub output_lower p) then
    .error (.bootstrapError "unknown".data "Invalid or unsupported TLD for WHOIS lookup".data)
  else if available_patterns.any (fun p => containsSub output_lower p) then
    .ok true
  else if 2 ≤ (taken_patterns.filter (fun p => containsSub output_lower p)).length then
    .ok false
  else if (trimStr output_lower).length < 50 then
    .ok true
  else
    .error (.whoisError "unknown".data "Unable to determine domain status from WHOIS response".data)

/-- `WhoisClient::is_rate_limited` (`protocols/whois.rs` lines 301–318). -/
def is_rate_limited (output : Str) : Bool :=
  let output_lower := toLowerStr output
  rate_limit_patterns.any (fun p => containsSub output_lower p)

/-- Outcome of running the system `whois` command
(`execute_whois_command`, `protocols/whois.rs` lines 121–157),
abstracting the subprocess: the lowercased stdout of the first
invocation together with the lowercased stdout of the retry that is
consulted only when the first response is rate-limited; or failure to
execute the command; or expiry of the `tokio::time::timeout` wrapper of
`check_domain`. -/
inductive WhoisExecOutcome where
  | output (first retry : Str)
  | execError (message : Str)
  | timedOut
deriving Repr

/-- The parsing part of `execute_whois_command` (`protocols/whois.rs`
lines 137–156): if the first response signals rate limiting, the retry's
response is parsed instead. -/
def execute_whois_command (first retry : Str) : Except DomainCheckError Bool :=
  let output_text := toLowerStr first
  if is_rate_limited output_text then
    parse_whois_availability (toLowerStr retry)
  else
    parse_whois_availability output_text

/-- `WhoisClient::check_domain` (`protocols/whois.rs` lines 55–77);
`timeout` is the client's timeout and `elapsed` the measured
`start_time.elapsed()` in ms. -/
def whois_check_domain (domain : Str) (timeout : Nat)
    (exec : WhoisExecOutcome) (elapsed : Nat) : Except DomainCheckError DomainResult :=
  match exec with
  | .output first retry =>
    match execute_whois_command first retry with
    | .ok available =>
        .ok { domain := domain, available := some available, info := none,
              check_duration := some elapsed, method_used := .Whois,
              error_message := none }
    | .error e => .error e
  | .execError message => .error (.whoisError domain message)
  | .timedOut => .error (.timeout "WHOIS query".data timeout)

/-- The environment of one orchestrator run: per-domain protocol
outcomes and per-step elapsed times, plus the resolver cache state and
the bootstrap-fetch outcome shared by the run. -/
structure LookupEnv where
  cache : BootstrapCache
  fetch : BootstrapFetchOutcome
  rdapRequest : Str → RdapRequestOutcome
  rdapElapsed : Str → Nat
  whoisExec : Str → WhoisExecOutcome
  whoisElapsed : Str → Nat

/-- `DomainChecker::filter_result_info` (`checker.rs` lines 225–230). -/
def filter_result_info (config : CheckConfig) (result : DomainResult) : DomainResult :=
  if !config.detailed_info then { result with info := none } else result

/-- `DomainChecker::check_domain` (`checker.rs` lines 179–220): validate,
try RDAP, fall back to WHOIS when enabled, and if both fail synthesize an
available result when the RDAP error implies availability, else return
the RDAP error. -/
def checker_check_domain (config : CheckConfig) (env : LookupEnv) (domain : Str) :
    Except DomainCheckError DomainResult :=
  match validate_domain domain with
  | .error e => .error e
  | .ok _ =>
    match rdap_check_domain domain config.enable_bootstrap config.rdap_timeout
        env.cache env.fetch (env.rdapRequest domain) (env.rdapElapsed domain) with
    | .ok result => .ok (filter_result_info config result)
    | .error rdap_error =>
      if config.enable_whois_fallback then
        match whois_check_domain domain config.whois_timeout
            (env.whoisExec domain) (env.whoisElapsed domain) with
        | .ok whois_result => .ok (filter_result_info config whois_result)
        | .error _whois_error =>
          if rdap_error.indicates_available then
            .ok { domain := domain, available := some true, info := none,
                  check_duration := none, method_used := .Rdap,
                  error_message := none }
          else
            .error rdap_error
      else
        .error rdap_error

/-- `check_single_domain_concurrent` (`checker.rs` lines 19–73): the same
pipeline as `check_domain`, with the `detailed_info` filtering inlined. -/
def check_single_domain_concurrent (config : CheckConfig) (env : LookupEnv)
    (domain : Str) : Except DomainCheckError DomainResult :=
  match validate_domain domain with
  | .error e => .error e
  | .ok _ =>
    match rdap_check_domain domain config.enable_bootstrap config.rdap_timeout
        env.cache env.fetch (env.rdapRequest domain) (env.rdapElapsed domain) with
    | .ok result =>
        .ok (if !config.detailed_info then { result with info := none } else result)
    | .error rdap_error =>
      if config.enable_whois_fallback then
        match whois_check_domain domain config.whois_timeout
            (env.whoisExec domain) (env.whoisElapsed domain) with
        | .ok whois_result =>
            .ok (if !config.detailed_info then { whois_result with info := none }
                 else whois_result)
        | .error _whois_error =>
          if rdap_error.indicates_available then
            .ok { domain := domain, available := some true, info := none,
                  check_duration := none, method_used := .Rdap,
                  error_message := none }
          else
            .error rdap_error
      else
        .error rdap_error

/-- `DomainChecker::check_domains` (`checker.rs` lines 262–333): one task
per domain carrying its index, results collected and sorted back to input
order (the embedding joins tasks in spawn order, which is that sorted
order), and task errors converted into a `DomainResult` whose domain
field is `domains[0]` — the source's own comment marks this as a slip. -/
def check_domains (config : CheckConfig) (env : LookupEnv) (domains : List Str) :
    Except DomainCheckError (List DomainResult) :=
  if domains.isEmpty then
    .ok []
  else
    let indexed_results :=
      domains.enum.map (fun p => (p.1, check_single_domain_concurrent config env p.2))
    .ok (indexed_results.map (fun p =>
      match p.2 with
      | .ok domain_result => domain_result
      | .error e =>
          { domain := domains.headD [], available := none, info := none,
            check_duration := none, method_used := .Unknown,
            error_message := some (errToString e) }))

/-- `DomainChecker::check_domains_stream` (`checker.rs` lines 370–394):
the stream's items are the per-domain outcomes of
`check_single_domain_concurrent`, with no error conversion; delivery
order (`buffer_unordered`) is completion order, abstracted in the
theorems below as an arbitrary permutation of this list. -/
def check_domains_stream (config : CheckConfig) (env : LookupEnv)
    (domains : List Str) : List (Except DomainCheckError DomainResult) :=
  domains.map (check_single_domain_concurrent config env)

/-- Modelled from the spec: the wall-clock span of one single-domain
lookup "from step 1 start to step 4 completion" (§4.6), which the
embedding — where real time appears only as the per-step elapsed
parameters of `LookupEnv` — renders as the sum of the elapsed times of
the steps the lookup actually performs: the RDAP step after a successful
validation, plus the WHOIS step when RDAP failed and fallback is
enabled. -/
def checker_check_domain_elapsed (config : CheckConfig) (env : LookupEnv)
    (domain : Str) : Nat :=
  match validate_domain domain with
  | .error _ => 0
  | .ok _ =>
    match rdap_check_domain domain config.enable_bootstrap config.rdap_timeout
        env.cache env.fetch (env.rdapRequest domain) (env.rdapElapsed domain) with
    | .ok _ => env.rdapElapsed domain
    | .error _ =>
      if config.enable_whois_fallback then
        env.rdapElapsed domain + env.whoisElapsed domain
      else
        env.rdapElapsed domain

/-- Rust `usize::MAX` on the 64-bit targets the crate builds for. -/
def USIZE_MAX : Nat := 2 ^ 64 - 1

/-- Rust `usize::saturating_mul`. -/
def satMul (a b : Nat) : Nat := min (a * b) USIZE_MAX

/-- Rust `usize::saturating_add`. -/
def satAdd (a b : Nat) : Nat := min (a + b) USIZE_MAX

/-- `Slot` (`generate.rs` lines 37–40). -/
inductive Slot where
  | literal (c : Char)
  | charset (chars : List Char)
deriving DecidableEq, Repr

/-- `word_chars` (`generate.rs` lines 43–47): a–z then hyphen. -/
def word_chars : List Char :=
  (List.range 26).map (fun i => Char.ofNat ('a'.toNat + i)) ++ ['-']

/-- `digit_chars` (`generate.rs` lines 50–52): 0–9. -/
def digit_chars : List Char :=
  (List.range 10).map (fun i => Char.ofNat ('0'.toNat + i))

/-- `any_chars` (`generate.rs` lines 55–59): `word_chars ++ digit_chars`. -/
def any_chars : List Char := word_chars ++ digit_chars

/-- The scanning loop of `parse_pattern` (`generate.rs` lines 72–99),
with the whole pattern threaded for the error payloads. -/
def parse_pattern_go (pattern : Str) : Str → Except DomainCheckError (List Slot)
  | [] => .ok []
  | '\\' :: rest =>
    match rest with
    | 'w' :: rest => (parse_pattern_go pattern rest).map (Slot.charset word_chars :: ·)
    | 'd' :: rest => (parse_pattern_go pattern rest).map (Slot.charset digit_chars :: ·)
    | '\\' :: rest => (parse_pattern_go pattern rest).map (Slot.literal '\\' :: ·)
    | other :: _ =>
        .error (.invalidPattern pattern
          ("unknown escape sequence '\\".data ++ [other] ++ "'".data))
    | [] => .error (.invalidPattern pattern "trailing backslash".data)
  | '?' :: rest => (parse_pattern_go pattern rest).map (Slot.charset any_chars :: ·)
  | c :: rest => (parse_pattern_go pattern rest).map (Slot.literal c :: ·)

/-- `parse_pattern` (`generate.rs` lines 64–100). -/
def parse_pattern (pattern : Str) : Except DomainCheckError (List Slot) :=
  if pattern.isEmpty then
    .error (.invalidPattern pattern "pattern cannot be empty".data)
  else
    parse_pattern_go pattern pattern

/-- The per-slot size used in `estimate_pattern_count`
(`generate.rs` lines 111–114). -/
def slot_size : Slot → Nat
  | .literal _ => 1
  | .charset chars => chars.length

/-- `estimate_pattern_count` (`generate.rs` lines 107–118): the raw
Cartesian-product size, accumulated with `saturating_mul` from 1. -/
def estimate_pattern_count (pattern : Str) : Except DomainCheckError Nat :=
  (parse_pattern pattern).map
    (fun slots => slots.foldl (fun count s => satMul count (slot_size s)) 1)

/-- The odometer enumeration of `expand_pattern` (`generate.rs` lines
142–171): the full mixed-radix Cartesian product with the rightmost slot
varying fastest, rendered functionally (the first slot's choice varies
slowest, exactly the order the counter loop visits). -/
def odometer : List (List Char) → List Str
  | [] => [[]]
  | options :: rest => options.flatMap (fun c => (odometer rest).map (c :: ·))

/-- `expand_pattern` (`generate.rs` lines 126–174): parse, enumerate the
product in odometer order, and keep the candidates that pass
`is_valid_base_name`. -/
def expand_pattern (pattern : Str) : Except DomainCheckError (List Str) :=
  (parse_pattern pattern).map (fun slots =>
    let options := slots.map (fun s =>
      match s with
      | .literal c => [c]
      | .charset chars => chars)
    if options.isEmpty then []
    else (odometer options).filter is_valid_base_name)

/-- `apply_affixes` (`generate.rs` lines 185–226).  For each base name
the source pushes, in order: for each prefix, `p ++ name ++ s` for every
suffix `s` and then `p ++ name` (the guarding condition
`suffixes.is_empty() || !suffixes.is_empty()` is a tautology); then
`name ++ s` for every suffix; then the bare name when `include_bare`.
Every candidate is kept only if `is_valid_base_name` accepts it. -/
def apply_affixes (base_names prefixes suffixes : List Str)
    (include_bare : Bool) : List Str :=
  base_names.flatMap (fun name =>
    (prefixes.flatMap (fun p =>
      (suffixes.filterMap (fun s =>
        let candidate := p ++ name ++ s
        if is_valid_base_name candidate then some candidate else none)) ++
      (let candidate := p ++ name
       if is_valid_base_name candidate then [candidate] else []))) ++
    (suffixes.filterMap (fun s =>
      let candidate := name ++ s
      if is_valid_base_name candidate then some candidate else none)) ++
    (if include_bare && is_valid_base_name name then [name] else []))

/-- Modelled from the spec: `GenerateConfig` (§4.2; its declaration
lives in the part of `types.rs` not present under `src/`): the pattern
list, prefix and suffix lists, and the include-bare flag, as used by
`generate_names` and its tests. -/
structure GenerateConfig where
  patterns : List Str
  prefixes : List Str
  suffixes : List Str
  include_bare : Bool
deriving DecidableEq, Repr

/-- Modelled from the spec: `GenerateConfig::has_affixes` — affix
application runs only when at least one prefix or suffix is provided
(§4.2). -/
def GenerateConfig.has_affixes (c : GenerateConfig) : Bool :=
  !c.prefixes.isEmpty || !c.suffixes.isEmpty

/-- Modelled from the spec: `GenerationResult` (§4.2) — the validated
names together with the pre-filter estimate. -/
structure GenerationResult where
  names : List Str
  estimated_count : Nat
deriving DecidableEq, Repr

/-- `generate_names` (`generate.rs` lines 237–274): the estimate
accumulates per-pattern estimates onto the literal count with
`saturating_add`; the base names are the literals followed by each
pattern's expansion; affixes are applied when configured, otherwise the
base names are filtered through validation. -/
def generate_names (config : GenerateConfig) (literal_names : List Str) :
    Except DomainCheckError GenerationResult :=
  match config.patterns.foldlM
      (fun acc p => (estimate_pattern_count p).map (fun e => satAdd acc e))
      literal_names.length with
  | .error e => .error e
  | .ok estimated_count =>
    match config.patterns.foldlM
        (fun acc p => (expand_pattern p).map (fun ns => acc ++ ns))
        literal_names with
    | .error e => .error e
    | .ok base_names =>
      .ok { names :=
              if config.has_affixes then
                apply_affixes base_names config.prefixes config.suffixes
                  config.include_bare
              else
                base_names.filter is_valid_base_name,
            estimated_count := estimated_count }

/-! ## Concrete environments used to evaluate the model -/

/-- An environment in which every RDAP request completes with a taken
verdict in 3 ms and every WHOIS command returns empty output in 5 ms;
the resolver cache starts empty. -/
def envSimple : LookupEnv :=
  ⟨BootstrapCache.new, .fetched [], fun _ => .completed false none, fun _ => 3,
   fun _ => .output [] [], fun _ => 5⟩

/-- An environment in which the RDAP step takes 7 ms and the WHOIS
command answers `no match` in 5 ms; the resolver cache starts empty, so
with bootstrap disabled any TLD outside the static table makes the RDAP
step fail. -/
def envFallback : LookupEnv :=
  ⟨BootstrapCache.new, .fetched [], fun _ => .completed false none, fun _ => 7,
   fun _ => .output "no match".data [], fun _ => 5⟩

/-! ## Claims -/

/-- C1: the batch operation returns exactly one result per input domain
in input order, each carrying the input domain string at its position.
The code violates the last part: a task that ends in an error is
converted into a result whose domain field is `domains[0]`, not the
failed task's own domain.  Evaluated on `["a.com", ""]`, where the empty
string fails validation: the second result's domain field is `"a.com"`,
not `""`. -/
theorem C1_error_result_carries_first_domain :
    (check_domains CheckConfig.default envSimple ["a.com".data, "".data]).map
        (fun rs => rs.map (fun r => r.domain)) =
      .ok ["a.com".data, "a.com".data] ∧
    "a.com".data ≠ "".data := by
  exact ⟨rfl, by decide⟩

/-- C3 counterexample: on the validator-rejected empty string, the
single-lookup `check_domain` fails with an invalid-domain error value
instead of returning a `DomainResult`. -/
theorem C3_rejected_input_fails_with_error_value :
    checker_check_domain CheckConfig.default envSimple "".data =
      .error (.invalidDomain "".data "Domain name cannot be empty".data) := by
  rfl

/-- C3 as amended: for every input the validator rejects, the
single-lookup `check_domain` returns that invalid-domain error value
(not a `DomainResult`); it is the batch executor that converts the error
into a `DomainResult` with `method_used = Unknown`, no availability
verdict, and a non-empty error message. -/
theorem C3_amended_rejected_input_behaviour :
    ∀ (config : CheckConfig) (env : LookupEnv) (domain : Str) (e : DomainCheckError),
      validate_domain domain = .error e →
      checker_check_domain config env domain = .error e ∧
      check_domains config env [domain] =
        .ok [⟨domain, none, none, none, .Unknown, some (errToString e)⟩] ∧
      errToString e ≠ [] := by
  intro config env domain e h
  have hshape : ∃ d r, e = .invalidDomain d r := by
    simp only [validate_domain] at h
    split at h
    · exact ⟨_, _, (Except.error.inj h).symm⟩
    · split at h
      · exact ⟨_, _, (Except.error.inj h).symm⟩
      · exact absurd h (by simp)
  have hsingle : check_single_domain_concurrent config env domain = .error e := by
    unfold check_single_domain_concurrent
    rw [h]
  refine ⟨?_, ?_, ?_⟩
  · unfold checker_check_domain
    rw [h]
  · simp [check_domains, List.enum, List.enumFrom, hsingle]
  · obtain ⟨d, r, rfl⟩ := hshape
    unfold errToString
    intro hnil
    simp only [List.append_assoc] at hnil
    exact List.cons_ne_nil _ _ (List.append_eq_nil.mp hnil).1

/-- C3 witness: the amended statement evaluated on the empty string. -/
theorem C3_amended_rejected_input_behaviour_witness :
    validate_domain "".data =
      .error (.invalidDomain "".data "Domain name cannot be empty".data) ∧
    check_domains CheckConfig.default envSimple ["".data] =
      .ok [⟨"".data, none, none, none, .Unknown,
            some (errToString (.invalidDomain "".data "Domain name cannot be empty".data))⟩] :=
  ⟨rfl, (C3_amended_rejected_input_behaviour CheckConfig.default envSimple "".data
      (.invalidDomain "".data "Domain name cannot be empty".data) rfl).2.1⟩

/-- C5 counterexample: the base-name validator has no upper length
bound — a string of 64 `a`s (longer than 63 characters) is accepted,
though the claim says every such string is rejected. -/
theorem C5_name_longer_than_63_accepted :
    63 < (List.replicate 64 'a').length ∧
    is_valid_base_name (List.replicate 64 'a') = true := by
  decide

/-- C5 as amended: the base-name validator accepts a string iff it is at
least 2 characters long, consists only of alphanumeric characters or
hyphens (so in particular it contains no dot), and has no leading or
trailing hyphen; there is no upper length bound. -/
theorem C5_amended_base_name_characterization :
    (∀ s : Str, is_valid_base_name s = true ↔
      (2 ≤ s.length ∧ s.head? ≠ some '-' ∧ s.getLast? ≠ some '-' ∧
       ∀ c ∈ s, c.isAlphanum = true ∨ c = '-')) ∧
    (∀ s : Str, is_valid_base_name s = true → '.' ∉ s) := by
  have hiff : ∀ s : Str, is_valid_base_name s = true ↔
      (2 ≤ s.length ∧ s.head? ≠ some '-' ∧ s.getLast? ≠ some '-' ∧
       ∀ c ∈ s, c.isAlphanum = true ∨ c = '-') := by
    intro s
    unfold is_valid_base_name
    split
    · rename_i hlen
      exact iff_of_false (by simp) (fun hc => by omega)
    · split
      · rename_i hlen hhyph
        refine iff_of_false (by simp) (fun hc => ?_)
        rcases Bool.or_eq_true _ _ |>.mp hhyph with h | h
        · exact hc.2.1 (by simpa using h)
        · exact hc.2.2.1 (by simpa using h)
      · rename_i hlen hhyph
        simp only [Bool.or_eq_true, decide_eq_true_eq, not_or] at hhyph
        simp only [List.all_eq_true, Bool.or_eq_true, decide_eq_true_eq]
        constructor
        · intro hall
          exact ⟨by omega, hhyph.1, hhyph.2, hall⟩
        · intro hc
          exact hc.2.2.2
  refine ⟨hiff, ?_⟩
  intro s hs hdot
  rcases ((hiff s).mp hs).2.2.2 '.' hdot with h | h
  · exact absurd h (by decide)
  · exact absurd h (by decide)

/-- C5 witness: the amended characterization evaluated on `"ab"`. -/
theorem C5_amended_base_name_characterization_witness :
    is_valid_base_name "ab".data = true ∧ '.' ∉ "ab".data :=
  ⟨(C5_amended_base_name_characterization.1 "ab".data).mpr (by decide),
   C5_amended_base_name_characterization.2 "ab".data (by decide)⟩

/-- C8: for every TLD in the static embedded table, `resolve_rdap`
returns the static endpoint immediately — no fetch is performed, the
cache is unchanged, and no error is possible — for every cache state
(fresh, stale, empty, or negatively cached) and both values of the
bootstrap flag. -/
theorem C8_static_table_wins :
    ∀ (tld endpoint : Str) (use_bootstrap : Bool) (cache : BootstrapCache)
      (fetch : BootstrapFetchOutcome),
      lookupAssoc rdap_registry (toLowerStr tld) = some endpoint →
      get_rdap_endpoint tld use_bootstrap cache fetch = ⟨.ok endpoint, false, cache⟩ := by
  intro tld endpoint use_bootstrap cache fetch h
  simp only [get_rdap_endpoint, h]

/-- C8 witness: the static-table priority evaluated on `com` with
bootstrap enabled and a negatively cached, stale state. -/
theorem C8_static_table_wins_witness :
    get_rdap_endpoint "com".data true
        ⟨[], [], ["com".data], false, true⟩ (.fetched []) =
      ⟨.ok "https://rdap.verisign.com/com/v1/domain/".data, false,
       ⟨[], [], ["com".data], false, true⟩⟩ :=
  C8_static_table_wins "com".data _ true _ (.fetched []) rfl

/-- C2 counterexample: checking `x.com` — whose TLD `com` is in the
static table — with bootstrap enabled reports `method_used = Bootstrap`,
not `Rdap` as the claim states: the RDAP client derives the method from
its `use_bootstrap` configuration flag, not from where the endpoint was
resolved. -/
theorem C2_static_tld_reports_bootstrap_when_enabled :
    (rdap_check_domain "x.com".data true 3000 BootstrapCache.new (.fetched [])
        (.completed false none) 3).map (fun r => r.method_used) =
      .ok CheckMethod.Bootstrap ∧
    lookupAssoc rdap_registry "com".data =
      some "https://rdap.verisign.com/com/v1/domain/".data ∧
    CheckMethod.Bootstrap ≠ CheckMethod.Rdap := by
  exact ⟨rfl, rfl, by decide⟩

/-- C2 as amended: on a successfully completed RDAP request the result's
`method_used` is `Bootstrap` exactly when the client was configured with
bootstrap enabled and `Rdap` otherwise, regardless of whether the
endpoint came from the static table or the dynamic map; a result the
RDAP client synthesizes from an availability-implying error always
reports `Rdap`. -/
theorem C2_amended_method_reflects_config_flag :
    (∀ (domain : Str) (use_bootstrap : Bool) (timeout : Nat)
       (cache : BootstrapCache) (fetch : BootstrapFetchOutcome)
       (available : Bool) (info : Option DomainInfo) (elapsed : Nat)
       (r : DomainResult),
       rdap_check_domain domain use_bootstrap timeout cache fetch
           (.completed available info) elapsed = .ok r →
       r.method_used = (if use_bootstrap then CheckMethod.Bootstrap else CheckMethod.Rdap)) ∧
    (∀ (domain : Str) (use_bootstrap : Bool) (timeout : Nat)
       (cache : BootstrapCache) (fetch : BootstrapFetchOutcome)
       (e : DomainCheckError) (elapsed : Nat) (r : DomainResult),
       rdap_check_domain domain use_bootstrap timeout cache fetch
           (.failed e) elapsed = .ok r →
       r.method_used = CheckMethod.Rdap) := by
  constructor
  · intro domain use_bootstrap timeout cache fetch available info elapsed r h
    simp only [rdap_check_domain] at h
    split at h
    · exact absurd h (by simp)
    · split at h
      · exact absurd h (by simp)
      · cases Except.ok.inj h
        rfl
  · intro domain use_bootstrap timeout cache fetch e elapsed r h
    simp only [rdap_check_domain] at h
    split at h
    · exact absurd h (by simp)
    · split at h
      · exact absurd h (by simp)
      · split at h
        · cases Except.ok.inj h
          rfl
        · exact absurd h (by simp)

/-- C2 witness: the amended statement evaluated on `x.com` with
bootstrap enabled, on the concrete result the model computes there. -/
theorem C2_amended_method_reflects_config_flag_witness :
    ({ domain := "x.com".data, available := some false, info := none,
       check_duration := some 3, method_used := .Bootstrap,
       error_message := none } : DomainResult).method_used =
      (if true then CheckMethod.Bootstrap else CheckMethod.Rdap) :=
  C2_amended_method_reflects_config_flag.1 "x.com".data true 3000
    BootstrapCache.new (.fetched []) false none 3 _ rfl

/-- Rule 1 of the claimed WHOIS parsing cascade: some invalid-TLD
pattern occurs in the (lowercased) body. -/
def whois_matches_invalid_tld (lower : Str) : Bool :=
  invalid_tld_patterns.any (fun p => containsSub lower p)

/-- Rule 2 of the claimed WHOIS parsing cascade: some available pattern
occurs in the (lowercased) body. -/
def whois_matches_available (lower : Str) : Bool :=
  available_patterns.any (fun p => containsSub lower p)

/-- Rule 3 of the claimed WHOIS parsing cascade: the number of distinct
taken patterns occurring in the (lowercased) body. -/
def whois_taken_count (lower : Str) : Nat :=
  (taken_patterns.filter (fun p => containsSub lower p)).length

/-- C6: the WHOIS availability parser applies exactly the claimed
ordered rules to the lowercased body — invalid-TLD patterns give a
bootstrap error, else an available pattern gives the available verdict,
else at least two distinct taken patterns give the taken verdict, else a
trimmed body shorter than 50 characters gives the available verdict,
else a whois error; consequently a body matching both an invalid-TLD
pattern and an available pattern yields the bootstrap error. -/
theorem C6_whois_parser_ordered_rules :
    (∀ body : Str,
      parse_whois_availability body =
        (if whois_matches_invalid_tld (toLowerStr body) then
          .error (.bootstrapError "unknown".data
            "Invalid or unsupported TLD for WHOIS lookup".data)
        else if whois_matches_available (toLowerStr body) then
          .ok true
        else if 2 ≤ whois_taken_count (toLowerStr body) then
          .ok false
        else if (trimStr (toLowerStr body)).length < 50 then
          .ok true
        else
          .error (.whoisError "unknown".data
            "Unable to determine domain status from WHOIS response".data))) ∧
    (∀ body : Str,
      whois_matches_invalid_tld (toLowerStr body) = true →
      parse_whois_availability body =
        .error (.bootstrapError "unknown".data
          "Invalid or unsupported TLD for WHOIS lookup".data)) := by
  have hmain : ∀ body : Str,
      parse_whois_availability body =
        (if whois_matches_invalid_tld (toLowerStr body) then
          .error (.bootstrapError "unknown".data
            "Invalid or unsupported TLD for WHOIS lookup".data)
        else if whois_matches_available (toLowerStr body) then
          .ok true
        else if 2 ≤ whois_taken_count (toLowerStr body) then
          .ok false
        else if (trimStr (toLowerStr body)).length < 50 then
          .ok true
        else
          .error (.whoisError "unknown".data
            "Unable to determine domain status from WHOIS response".data)) := by
    intro body
    rfl
  refine ⟨hmain, ?_⟩
  intro body hinv
  rw [hmain body, if_pos hinv]

/-- C6 witness: a body matching both an invalid-TLD pattern and an
available pattern (`no whois server` plus `domain available`) yields the
bootstrap error. -/
theorem C6_whois_parser_ordered_rules_witness :
    parse_whois_availability "No whois server; domain available".data =
      .error (.bootstrapError "unknown".data
        "Invalid or unsupported TLD for WHOIS lookup".data) :=
  C6_whois_parser_ordered_rules.2 "No whois server; domain available".data (by decide)

/-- Every error `get_rdap_endpoint` can return is a bootstrap or network
error, none of which implies availability. -/
theorem get_rdap_endpoint_error_not_available (tld : Str) (use_bootstrap : Bool)
    (cache : BootstrapCache) (fetch : BootstrapFetchOutcome) (e : DomainCheckError)
    (h : (get_rdap_endpoint tld use_bootstrap cache fetch).result = .error e) :
    e.indicates_available = false := by
  simp only [get_rdap_endpoint] at h
  split at h
  · exact absurd h (by simp)
  · split at h
    · exact absurd h (by simp)
    · split at h
      · cases Except.error.inj h
        rfl
      · split at h
        · split at h
          · rename_i efetch heq
            cases Except.error.inj h
            split at heq
            · split at heq
              · exact absurd heq (by simp)
              · cases Except.error.inj heq
                rfl
              · cases Except.error.inj heq
                rfl
            · exact absurd heq (by simp)
          · split at h
            · exact absurd h (by simp)
            · cases Except.error.inj h
              rfl
        · cases Except.error.inj h
          rfl

/-- Errors of `extract_tld` are invalid-domain errors, which never imply
availability. -/
theorem extract_tld_error_not_available (domain : Str) (e : DomainCheckError)
    (h : extract_tld domain = .error e) : e.indicates_available = false := by
  simp only [extract_tld] at h
  split at h
  · cases Except.error.inj h
    rfl
  · exact absurd h (by simp)

/-- A successful result of the RDAP client always carries the client's
measured elapsed time as its `check_duration`. -/
theorem rdap_check_domain_ok_duration (domain : Str) (use_bootstrap : Bool)
    (timeout : Nat) (cache : BootstrapCache) (fetch : BootstrapFetchOutcome)
    (request : RdapRequestOutcome) (elapsed : Nat) (r : DomainResult)
    (h : rdap_check_domain domain use_bootstrap timeout cache fetch request elapsed
          = .ok r) :
    r.check_duration = some elapsed := by
  simp only [rdap_check_domain] at h
  split at h
  · exact absurd h (by simp)
  · split at h
    · exact absurd h (by simp)
    · split at h
      · cases Except.ok.inj h
        rfl
      · split at h
        · cases Except.ok.inj h
          rfl
        · exact absurd h (by simp)
      · exact absurd h (by simp)

/-- Every error escaping the RDAP client fails the implies-available
predicate: availability-implying errors are converted into results
inside the client itself. -/
theorem rdap_check_domain_error_not_available (domain : Str) (use_bootstrap : Bool)
    (timeout : Nat) (cache : BootstrapCache) (fetch : BootstrapFetchOutcome)
    (request : RdapRequestOutcome) (elapsed : Nat) (e : DomainCheckError)
    (h : rdap_check_domain domain use_bootstrap timeout cache fetch request elapsed
          = .error e) :
    e.indicates_available = false := by
  simp only [rdap_check_domain] at h
  split at h
  · rename_i htld
    cases Except.error.inj h
    exact extract_tld_error_not_available domain e htld
  · split at h
    · rename_i hres
      cases Except.error.inj h
      exact get_rdap_endpoint_error_not_available _ _ _ _ e hres
    · split at h
      · exact absurd h (by simp)
      · split at h
        · exact absurd h (by simp)
        · rename_i hniavail
          cases Except.error.inj h
          exact Bool.not_eq_true _ |>.mp hniavail
      · cases Except.error.inj h
        rfl

/-- A successful result of the WHOIS client always carries the client's
measured elapsed time as its `check_duration`. -/
theorem whois_check_domain_ok_duration (domain : Str) (timeout : Nat)
    (exec : WhoisExecOutcome) (elapsed : Nat) (r : DomainResult)
    (h : whois_check_domain domain timeout exec elapsed = .ok r) :
    r.check_duration = some elapsed := by
  simp only [whois_check_domain] at h
  split at h
  · split at h
    · cases Except.ok.inj h
      rfl
    · exact absurd h (by simp)
  · exact absurd h (by simp)
  · exact absurd h (by simp)

/-- C4 counterexample: a lookup on `x.zz` whose RDAP step fails after
7 ms (unknown TLD, bootstrap disabled) and whose WHOIS fallback answers
`no match` in 5 ms completes with an available verdict whose
`check_duration` is 5 ms — the WHOIS step alone — while the wall-clock
span of the entire lookup is 12 ms; the duration is not the span from
validation start to resolution. -/
theorem C4_fallback_duration_excludes_rdap_step :
    (checker_check_domain CheckConfig.default envFallback "x.zz".data).map
        (fun r => (r.available, r.check_duration)) = .ok (some true, some 5) ∧
    checker_check_domain_elapsed CheckConfig.default envFallback "x.zz".data = 12 ∧
    (12 : Nat) ≠ 5 := by
  exact ⟨rfl, rfl, by decide⟩

/-- C4 as amended: a completed lookup always carries a `check_duration`,
but it is the elapsed time of the protocol step that produced the
verdict — the RDAP client's own span or, on fallback, the WHOIS client's
own span — not the wall-clock span of the whole lookup; the
orchestrator's synthesized-availability branch (which would set the
duration to `None`) is unreachable because the RDAP client already
converts availability-implying errors into results. -/
theorem C4_amended_duration_measures_protocol_step :
    ∀ (config : CheckConfig) (env : LookupEnv) (domain : Str) (r : DomainResult),
      checker_check_domain config env domain = .ok r →
      r.check_duration = some (env.rdapElapsed domain) ∨
      r.check_duration = some (env.whoisElapsed domain) := by
  intro config env domain r h
  unfold checker_check_domain at h
  split at h
  · exact absurd h (by simp)
  · split at h
    · rename_i result hrdap
      cases Except.ok.inj h
      left
      have := rdap_check_domain_ok_duration _ _ _ _ _ _ _ _ hrdap
      unfold filter_result_info
      split
      · exact this
      · exact this
    · rename_i rdap_error hrdap
      split at h
      · split at h
        · rename_i whois_result hwhois
          cases Except.ok.inj h
          right
          have := whois_check_domain_ok_duration _ _ _ _ _ hwhois
          unfold filter_result_info
          split
          · exact this
          · exact this
        · split at h
          · rename_i hav
            exact absurd hav
              (by simp [rdap_check_domain_error_not_available _ _ _ _ _ _ _ _ hrdap])
          · exact absurd h (by simp)
      · exact absurd h (by simp)

/-- C4 witness: the amended statement evaluated on the `x.zz` fallback
lookup, whose result carries the WHOIS step's 5 ms duration. -/
theorem C4_amended_duration_measures_protocol_step_witness :
    ({ domain := "x.zz".data, available := some true, info := none,
       check_duration := some 5, method_used := .Whois,
       error_message := none } : DomainResult).check_duration =
        some (envFallback.rdapElapsed "x.zz".data) ∨
    ({ domain := "x.zz".data, available := some true, info := none,
       check_duration := some 5, method_used := .Whois,
       error_message := none } : DomainResult).check_duration =
        some (envFallback.whoisElapsed "x.zz".data) :=
  C4_amended_duration_measures_protocol_step CheckConfig.default envFallback
    "x.zz".data _ rfl

/-- Affix application in the order the claim describes: for each base
name, first `p ++ name ++ s` for every (prefix, suffix) pair, then
`p ++ name` for every prefix, then `name ++ s` for every suffix, then
the bare name iff `include_bare` — each candidate kept iff it passes
base-name validation.  This definition follows the claim's words, for
comparison with `apply_affixes`. -/
def apply_affixes_claimed (base_names prefixes suffixes : List Str)
    (include_bare : Bool) : List Str :=
  base_names.flatMap (fun name =>
    (prefixes.flatMap (fun p =>
      suffixes.filterMap (fun s =>
        let candidate := p ++ name ++ s
        if is_valid_base_name candidate then some candidate else none))) ++
    (prefixes.filterMap (fun p =>
      let candidate := p ++ name
      if is_valid_base_name candidate then some candidate else none)) ++
    (suffixes.filterMap (fun s =>
      let candidate := name ++ s
      if is_valid_base_name candidate then some candidate else none)) ++
    (if include_bare && is_valid_base_name name then [name] else []))

/-- C9 counterexample: with two prefixes and one suffix the code
interleaves, per prefix, the pair candidates and the prefix-only
candidate (`aaxxcc, aaxx, bbxxcc, bbxx, xxcc`), while the claim puts all
pair candidates before all prefix-only candidates
(`aaxxcc, bbxxcc, aaxx, bbxx, xxcc`). -/
theorem C9_per_prefix_interleaving :
    apply_affixes ["xx".data] ["aa".data, "bb".data] ["cc".data] false =
      ["aaxxcc".data, "aaxx".data, "bbxxcc".data, "bbxx".data, "xxcc".data] ∧
    apply_affixes_claimed ["xx".data] ["aa".data, "bb".data] ["cc".data] false =
      ["aaxxcc".data, "bbxxcc".data, "aaxx".data, "bbxx".data, "xxcc".data] ∧
    apply_affixes ["xx".data] ["aa".data, "bb".data] ["cc".data] false ≠
      apply_affixes_claimed ["xx".data] ["aa".data, "bb".data] ["cc".data] false := by
  exact ⟨rfl, rfl, by decide⟩

/-- The singleton-or-empty block of a validated candidate is the
`toList` of its optional form. -/
theorem toList_ite_some {α : Type} (c : Bool) (x : α) :
    (if c then some x else none).toList = if c then [x] else [] := by
  cases c <;> rfl

/-- Interleaving a list-valued block with an optional block inside one
`flatMap` is a permutation of emitting all list blocks first and all
optional hits afterwards. -/
theorem flatMap_append_toList_perm {α β : Type} (l : List α) (f : α → List β)
    (g : α → Option β) :
    (l.flatMap fun x => f x ++ (g x).toList).Perm (l.flatMap f ++ l.filterMap g) := by
  induction l with
  | nil => simp
  | cons a t ih =>
    rw [List.flatMap_cons, List.flatMap_cons, List.filterMap_cons]
    cases hga : g a with
    | none =>
      simp only [Option.toList_none, List.append_nil, List.append_assoc]
      exact List.Perm.append_left _ ih
    | some b =>
      simp only [Option.toList_some, List.append_assoc, List.singleton_append]
      refine List.Perm.append_left _ ?_
      exact (ih.cons b).trans List.perm_middle.symm

/-- C9 as amended: for each base name the code emits, in order, for each
prefix all `p ++ name ++ s` candidates followed immediately by
`p ++ name`, then all `name ++ s` candidates, then the bare name — the
same validated candidates, each exactly once, as the claimed ordering,
so the two enumerations are permutations of one another. -/
theorem C9_amended_affix_multiset :
    ∀ (base_names prefixes suffixes : List Str) (include_bare : Bool),
      (apply_affixes base_names prefixes suffixes include_bare).Perm
        (apply_affixes_claimed base_names prefixes suffixes include_bare) := by
  intro bs ps ss ib
  unfold apply_affixes apply_affixes_claimed
  refine List.Perm.flatMap_left _ (fun name _ => ?_)
  have hmain := flatMap_append_toList_perm ps
      (fun p => ss.filterMap (fun s =>
        if is_valid_base_name (p ++ name ++ s) then some (p ++ name ++ s) else none))
      (fun p => if is_valid_base_name (p ++ name) then some (p ++ name) else none)
  simp only [toList_ite_some] at hmain
  simp only [← List.append_assoc]
  exact List.Perm.append_right _ (List.Perm.append_right _ hmain)

/-- Whether an `Except` value is a success. -/
def exceptIsOk {ε α : Type} : Except ε α → Bool
  | .ok _ => true
  | .error _ => false

/-- C7 counterexample: on input `[""]` (a lookup that ends in an error),
the stream yields one error item and no `DomainResult`, while the batch
synthesizes one `DomainResult` — so the collected multisets differ. -/
theorem C7_stream_batch_differ_on_errors :
    check_domains_stream CheckConfig.default envSimple ["".data] =
      [.error (.invalidDomain "".data "Domain name cannot be empty".data)] ∧
    check_domains CheckConfig.default envSimple ["".data] =
      .ok [⟨"".data, none, none, none, .Unknown,
            some (errToString (.invalidDomain "".data "Domain name cannot be empty".data))⟩] ∧
    (((([.error (.invalidDomain "".data "Domain name cannot be empty".data)] :
          List (Except DomainCheckError DomainResult)).filterMap Except.toOption :
        List DomainResult) : Multiset DomainResult) ≠
      (([⟨"".data, none, none, none, .Unknown,
          some (errToString (.invalidDomain "".data "Domain name cannot be empty".data))⟩] :
        List DomainResult) : Multiset DomainResult)) := by
  refine ⟨rfl, rfl, fun h => ?_⟩
  rw [Multiset.coe_eq_coe] at h
  exact absurd h.length_eq (by decide)

/-- If every per-domain outcome is a success, projecting the stream's
items to their success values recovers the batch's per-domain
conversion. -/
theorem filterMap_toOption_map_eq {α β ε : Type}
    (f : α → Except ε β) (k : α → β)
    (hk : ∀ d r, f d = .ok r → k d = r) :
    ∀ l : List α, (∀ d ∈ l, exceptIsOk (f d) = true) →
      (l.map f).filterMap Except.toOption = l.map k := by
  intro l
  induction l with
  | nil => intro _; rfl
  | cons a t ih =>
    intro hok
    cases hfa : f a with
    | ok r =>
      simp only [List.map_cons, List.filterMap_cons, hfa, Except.toOption]
      rw [ih (fun d hd => hok d (List.mem_cons_of_mem a hd)), hk a r hfa]
    | error e =>
      have := hok a (List.mem_cons_self a t)
      rw [hfa] at this
      exact absurd this (by simp [exceptIsOk])

/-- Mapping a function of the element over an enumerated list ignores
the indices. -/
theorem map_snd_enumFrom {α β : Type} (l : List α) (f : α → β) :
    ∀ n, (List.enumFrom n l).map (fun p => f p.2) = l.map f := by
  induction l with
  | nil => intro n; rfl
  | cons a t ih =>
    intro n
    simp only [List.enumFrom, List.map_cons]
    rw [ih]

/-- `List.enum` version of `map_snd_enumFrom`. -/
theorem map_snd_enum {α β : Type} (l : List α) (f : α → β) :
    l.enum.map (fun p => f p.2) = l.map f :=
  map_snd_enumFrom l f 0

/-- C7 as amended: when every individual lookup succeeds, collecting the
stream's items and keeping their `DomainResult` values yields, as a
multiset, exactly `check_batch`'s results, for every delivery
(completion) order; when some lookup ends in an error the two differ,
because the stream emits the error value itself while the batch
synthesizes a `DomainResult` from it. -/
theorem C7_amended_stream_batch_multiset :
    ∀ (config : CheckConfig) (env : LookupEnv) (domains : List Str)
      (delivered : List (Except DomainCheckError DomainResult))
      (rs : List DomainResult),
      delivered.Perm (check_domains_stream config env domains) →
      (∀ d ∈ domains, exceptIsOk (check_single_domain_concurrent config env d) = true) →
      check_domains config env domains = .ok rs →
      ((delivered.filterMap Except.toOption : List DomainResult) : Multiset DomainResult) =
        ((rs : List DomainResult) : Multiset DomainResult) := by
  intro config env domains delivered rs hperm hok hbatch
  have hk : ∀ d r, check_single_domain_concurrent config env d = .ok r →
      (fun d => match check_single_domain_concurrent config env d with
        | .ok domain_result => domain_result
        | .error e =>
            { domain := domains.headD [], available := none, info := none,
              check_duration := none, method_used := .Unknown,
              error_message := some (errToString e) } : Str → DomainResult) d = r := by
    intro d r hd
    simp only [hd]
  have hfm := filterMap_toOption_map_eq (check_single_domain_concurrent config env)
      _ hk domains hok
  have hrs : rs = domains.map (fun d =>
      match check_single_domain_concurrent config env d with
      | .ok domain_result => domain_result
      | .error e =>
          { domain := domains.headD [], available := none, info := none,
            check_duration := none, method_used := .Unknown,
            error_message := some (errToString e) }) := by
    cases domains with
    | nil => exact (Except.ok.inj hbatch).symm
    | cons d t =>
      unfold check_domains at hbatch
      rw [if_neg (by simp)] at hbatch
      rw [← Except.ok.inj hbatch, List.map_map]
      exact map_snd_enum (d :: t) (fun d' =>
        match check_single_domain_concurrent config env d' with
        | .ok domain_result => domain_result
        | .error e =>
            { domain := (d :: t).headD [], available := none, info := none,
              check_duration := none, method_used := .Unknown,
              error_message := some (errToString e) })
  rw [Multiset.coe_eq_coe]
  refine (hperm.filterMap _).trans ?_
  unfold check_domains_stream
  rw [hfm, hrs]

/-- C7 witness: the amended statement evaluated on `["a.com"]` with the
trivial delivery order. -/
theorem C7_amended_stream_batch_multiset_witness :
    (((check_domains_stream CheckConfig.default envSimple
          ["a.com".data]).filterMap Except.toOption : List DomainResult) :
        Multiset DomainResult) =
      (([⟨"a.com".data, some false, none, some 3, .Rdap, none⟩] :
        List DomainResult) : Multiset DomainResult) :=
  C7_amended_stream_batch_multiset CheckConfig.default envSimple ["a.com".data]
    (check_domains_stream CheckConfig.default envSimple ["a.com".data])
    [⟨"a.com".data, some false, none, some 3, .Rdap, none⟩]
    (List.Perm.refl _) (by decide) rfl

/-- Folding `saturating_mul` over a list of factors computes the true
product clamped to `usize::MAX`. -/
theorem foldl_satMul_eq (sizes : List Nat) :
    ∀ a, a ≤ USIZE_MAX → sizes.foldl satMul a = min (a * sizes.prod) USIZE_MAX := by
  induction sizes with
  | nil =>
    intro a ha
    simp only [List.foldl_nil, List.prod_nil, Nat.mul_one]
    exact (Nat.min_eq_left ha).symm
  | cons s t ih =>
    intro a ha
    rw [List.foldl_cons, ih (satMul a s) (Nat.min_le_right _ _), List.prod_cons]
    simp only [satMul]
    rcases Nat.le_total (a * s) USIZE_MAX with h | h
    · rw [Nat.min_eq_left h, Nat.mul_assoc]
    · rw [Nat.min_eq_right h]
      rcases Nat.eq_zero_or_pos t.prod with h0 | hpos
      · simp [h0]
      · have h1 : USIZE_MAX ≤ USIZE_MAX * t.prod := Nat.le_mul_of_pos_right _ hpos
        have h2 : USIZE_MAX ≤ a * (s * t.prod) := by
          rw [← Nat.mul_assoc]
          exact le_trans h (Nat.le_mul_of_pos_right _ hpos)
        rw [Nat.min_eq_right h1, Nat.min_eq_right h2]

/-- Folding `saturating_add` over a list of summands computes the true
sum clamped to `usize::MAX`. -/
theorem foldl_satAdd_eq (ests : List Nat) :
    ∀ a, a ≤ USIZE_MAX → ests.foldl satAdd a = min (a + ests.sum) USIZE_MAX := by
  induction ests with
  | nil =>
    intro a ha
    simp only [List.foldl_nil, List.sum_nil, Nat.add_zero]
    exact (Nat.min_eq_left ha).symm
  | cons e t ih =>
    intro a ha
    rw [List.foldl_cons, ih (satAdd a e) (Nat.min_le_right _ _), List.sum_cons]
    simp only [satAdd]
    omega

/-- If mapping `estimate_pattern_count` over the patterns succeeds, the
estimate fold of `generate_names` computes the `saturating_add` fold of
the individual estimates. -/
theorem foldlM_estimate_eq :
    ∀ (patterns : List Str) (ests : List Nat) (a : Nat),
      patterns.mapM estimate_pattern_count = .ok ests →
      patterns.foldlM
          (fun acc p => (estimate_pattern_count p).map (fun e => satAdd acc e)) a =
        .ok (ests.foldl satAdd a) := by
  intro patterns
  induction patterns with
  | nil =>
    intro ests a h
    cases Except.ok.inj h
    rfl
  | cons p t ih =>
    intro ests a h
    rw [List.mapM_cons] at h
    cases hp : estimate_pattern_count p with
    | error e =>
      rw [hp] at h
      exact Except.noConfusion (show Except.error e = Except.ok ests from h)
    | ok ep =>
      rw [hp] at h
      cases ht : t.mapM estimate_pattern_count with
      | error e =>
        rw [ht] at h
        exact Except.noConfusion (show Except.error e = Except.ok ests from h)
      | ok ets =>
        rw [ht] at h
        have hcons : ep :: ets = ests :=
          Except.ok.inj (show Except.ok (ep :: ets) = Except.ok ests from h)
        cases hcons
        rw [List.foldlM_cons, hp]
        show (t.foldlM _ (satAdd a ep)) = _
        rw [ih ets (satAdd a ep) ht, List.foldl_cons]

/-- If every pattern parses, the expansion fold of `generate_names`
succeeds. -/
theorem foldlM_expand_isOk :
    ∀ (patterns : List Str) (base : List Str),
      (∀ p ∈ patterns, exceptIsOk (parse_pattern p) = true) →
      ∃ out, patterns.foldlM
          (fun acc p => (expand_pattern p).map (fun ns => acc ++ ns)) base =
        .ok out := by
  intro patterns
  induction patterns with
  | nil => exact fun base _ => ⟨base, rfl⟩
  | cons p t ih =>
    intro base h
    have hp := h p (List.mem_cons_self p t)
    cases hparse : parse_pattern p with
    | error e => rw [hparse] at hp; exact absurd hp (by simp [exceptIsOk])
    | ok slots =>
      have hexp : expand_pattern p = .ok ((fun slots =>
          let options := slots.map (fun s =>
            match s with
            | .literal c => [c]
            | .charset chars => chars)
          if options.isEmpty then []
          else (odometer options).filter is_valid_base_name) slots) := by
        unfold expand_pattern
        rw [hparse]
        rfl
      obtain ⟨out, hout⟩ := ih _ (fun q hq => h q (List.mem_cons_of_mem p hq))
      refine ⟨out, ?_⟩
      rw [List.foldlM_cons, hexp]
      show t.foldlM _ _ = _
      exact hout

/-- Estimates succeeding forces the underlying parses to succeed. -/
theorem mapM_estimate_parses :
    ∀ (patterns : List Str) (ests : List Nat),
      patterns.mapM estimate_pattern_count = .ok ests →
      ∀ p ∈ patterns, exceptIsOk (parse_pattern p) = true := by
  intro patterns
  induction patterns with
  | nil => intro ests _ p hp; cases hp
  | cons q t ih =>
    intro ests h p hp
    rw [List.mapM_cons] at h
    cases hq : estimate_pattern_count q with
    | error e =>
      rw [hq] at h
      exact Except.noConfusion (show Except.error e = Except.ok ests from h)
    | ok eq' =>
      rw [hq] at h
      cases ht : t.mapM estimate_pattern_count with
      | error e =>
        rw [ht] at h
        exact Except.noConfusion (show Except.error e = Except.ok ests from h)
      | ok ets =>
        rcases List.mem_cons.mp hp with rfl | hmem
        · unfold estimate_pattern_count at hq
          cases hparse : parse_pattern p with
          | error e =>
            rw [hparse] at hq
            exact Except.noConfusion (show Except.error e = Except.ok eq' from hq)
          | ok slots => simp [exceptIsOk]
        · exact ih ets ht p hmem

/-- C10: pattern estimation is total on syntactically valid patterns and
never overflows — `estimate_pattern_count` returns the product of the
slot sizes clamped to `usize::MAX` by `saturating_mul`, and
`generate_names` accumulates the literal count and the per-pattern
estimates with `saturating_add`, likewise clamped. -/
theorem C10_saturating_estimates :
    (∀ (pattern : Str) (slots : List Slot),
       parse_pattern pattern = .ok slots →
       estimate_pattern_count pattern =
         .ok (min ((slots.map slot_size).prod) USIZE_MAX)) ∧
    (∀ (config : GenerateConfig) (literal_names : List Str) (ests : List Nat),
       config.patterns.mapM estimate_pattern_count = .ok ests →
       literal_names.length ≤ USIZE_MAX →
       (generate_names config literal_names).map (fun g => g.estimated_count) =
         .ok (min (literal_names.length + ests.sum) USIZE_MAX)) := by
  constructor
  · intro pattern slots hparse
    unfold estimate_pattern_count
    rw [hparse]
    show Except.ok (slots.foldl (fun count s => satMul count (slot_size s)) 1) = _
    rw [← List.foldl_map slot_size satMul slots 1,
        foldl_satMul_eq (slots.map slot_size) 1 (by unfold USIZE_MAX; omega),
        Nat.one_mul]
  · intro config literal_names ests hests hlen
    unfold generate_names
    rw [foldlM_estimate_eq config.patterns ests literal_names.length hests]
    obtain ⟨out, hout⟩ := foldlM_expand_isOk config.patterns literal_names
      (mapM_estimate_parses config.patterns ests hests)
    rw [hout]
    show Except.ok _ = _
    rw [foldl_satAdd_eq ests literal_names.length hlen]

/-- C10 witness: a pattern of thirteen `?` slots has true product
`37^13 > usize::MAX`, and its estimate saturates at `usize::MAX`; the
pipeline estimate for one literal plus the pattern `ab\d` is `1 + 10`. -/
theorem C10_saturating_estimates_witness :
    estimate_pattern_count (List.replicate 13 '?') =
      .ok (min (((List.replicate 13 (Slot.charset any_chars)).map slot_size).prod)
        USIZE_MAX) ∧
    USIZE_MAX < ((List.replicate 13 (Slot.charset any_chars)).map slot_size).prod ∧
    min (((List.replicate 13 (Slot.charset any_chars)).map slot_size).prod) USIZE_MAX =
      USIZE_MAX ∧
    (generate_names ⟨["ab\\d".data], [], [], false⟩ ["xy".data]).map
        (fun g => g.estimated_count) =
      .ok (min ((["xy".data] : List Str).length + ([10] : List Nat).sum) USIZE_MAX) :=
  ⟨C10_saturating_estimates.1 (List.replicate 13 '?')
      (List.replicate 13 (Slot.charset any_chars)) rfl,
   by decide,
   by decide,
   C10_saturating_estimates.2 ⟨["ab\\d".data], [], [], false⟩ ["xy".data]
      [10] rfl (by decide)⟩

end DomainCheck
